import Mathlib

/-!
Verification development for the clearly repository: a shallow embedding of the
event ingestion core, the bounded state store, and the RPC query surface, with
theorems settling the frozen claims about them.

Embedding conventions: Python str maps to String, int to Nat, None to Option,
a raised exception to an Except error value.  Compiled regular expressions are
abstracted as arbitrary predicates String to Bool (the search function of the
compiled object).  Components of the repository that are not present under src
(the event_core modules and clearly.utils.data) are modelled from the spec and
carry a doc comment saying so.
-/

namespace Clearly

/-! ## Pattern filters (client side, src/clearly/client.py) -/

/-- Embedding of the protobuf PatternFilter message: a regular expression text
plus a negate flag. -/
structure PatternFilter where
  pattern : String
  negate : Bool
deriving DecidableEq, Repr

/-- Embedding of the protobuf CaptureRequest message built by ClearlyClient.capture:
one optional pattern filter per category. -/
structure CaptureRequest where
  tasks_capture : Option PatternFilter
  workers_capture : Option PatternFilter
deriving DecidableEq, Repr

/-- Embedding of the Python str.strip call used by the pattern parse: drops
leading and trailing whitespace characters. -/
def pyStrip (s : String) : String :=
  ⟨((s.data.dropWhile Char.isWhitespace).reverse.dropWhile Char.isWhitespace).reverse⟩

/-- Embedding of the Python startswith test for a leading bang. -/
def startsWithBang (s : String) : Bool :=
  match s.data with
  | [] => false
  | c :: _ => c == '!'

/-- Embedding of the Python slice dropping the first character of a text. -/
def dropFirst (s : String) : String := ⟨s.data.drop 1⟩

/-- Embedding of ClearlyClient parse of a textual filter pattern
(src/clearly/client.py, lines 285 to 295).  A missing pattern is replaced by the
empty string; the text is stripped of surrounding whitespace and an empty result
becomes the match-everything pattern; the two texts meaning not interested give
no filter at all; a leading bang sets the negate flag and is dropped from the
pattern. -/
def parse_pattern (input : Option String) : Option PatternFilter :=
  let p0 := pyStrip (input.getD "")
  let p := if p0 = "" then "." else p0
  if p = "!" || p = "!." then none
  else
    let negate := startsWithBang p
    some { pattern := if negate then dropFirst p else p, negate := negate }

/-- Embedding of the front of ClearlyClient.capture (src/clearly/client.py,
lines 150 to 157): both patterns are parsed first; when both come back as no
filter the call raises before a CaptureRequest is even built, so an error value
here means no request object exists and no RPC is issued. -/
def capture (tasks workers : Option String) : Except String CaptureRequest :=
  let tasks_filter := parse_pattern tasks
  let workers_filter := parse_pattern workers
  if tasks_filter.isNone && workers_filter.isNone then
    Except.error "Nothing would be selected."
  else
    Except.ok { tasks_capture := tasks_filter, workers_capture := workers_filter }

/-! ## Match helper (clearly.utils.data) -/

/-- Modelled from the spec: the helper accepts of clearly.utils.data is imported
by src/clearly/server.py but the module itself is not under src.  Per the spec
filter model, an event matches when the expression matches any of the given
values (for tasks the name or the routing key, for workers the hostname), and
the negate flag then inverts the boolean result. -/
def accepts (search : String → Bool) (negate : Bool) (values : List String) : Bool :=
  (values.any search) != negate

/-! ## Task snapshots and reconciliation (spec section 4.2) -/

/-- Modelled from the spec: the task snapshot kept by the state store (the store
implementation lives in the event_core modules, not under src).  Textual fields
use the empty string for not-yet-known values. -/
structure TaskSnapshot where
  uuid : String
  name : String
  routing_key : String
  state : String
  previous_state : String
  retries : Nat
  result : String
  created : Bool
deriving DecidableEq, Repr

/-- Modelled from the spec: a normalized task event, with absent fields as none. -/
structure TaskEvent where
  uuid : String
  name : Option String
  routing_key : Option String
  state : Option String
  result : Option String
deriving DecidableEq, Repr

/-- The pending sentinel used as previous state for a first sighting. -/
def PENDING : String := "PENDING"

/-- The retry lifecycle state, whose transitions bump the retry counter. -/
def RETRY : String := "RETRY"

/-- First write wins: identity fields keep their first non-empty value. -/
def firstWrite (old : String) (ev : Option String) : String :=
  if old = "" then ev.getD "" else old

/-- Last write wins: a non-empty event field overwrites, an absent or empty one
keeps the prior value. -/
def lastWrite (old : String) (ev : Option String) : String :=
  match ev with
  | some v => if v = "" then old else v
  | none => old

/-- Modelled from the spec: steps 1 to 4 of the reconciliation algorithm of
section 4.2.  A missing prior snapshot means created is true and the previous
state is the pending sentinel; otherwise the event fields are merged into the
existing snapshot (first write wins for identity fields, last write wins for the
rest), the state is updated when the event carries one, the retry counter is
bumped on retry transitions, and created is false. -/
def reconcileTask (old : Option TaskSnapshot) (ev : TaskEvent) : TaskSnapshot :=
  match old with
  | none =>
      { uuid := ev.uuid, name := ev.name.getD "", routing_key := ev.routing_key.getD "",
        state := ev.state.getD PENDING, previous_state := PENDING,
        retries := 0, result := ev.result.getD "", created := true }
  | some t =>
      let newState := ev.state.getD t.state
      { uuid := t.uuid,
        name := firstWrite t.name ev.name,
        routing_key := firstWrite t.routing_key ev.routing_key,
        state := newState,
        previous_state := t.state,
        retries := if newState = RETRY then t.retries + 1 else t.retries,
        result := lastWrite t.result ev.result,
        created := false }

/-- The bounded ordered mapping of task id to snapshot, kept in first-seen order
(the order eviction uses). -/
abbrev TaskStore := List (String × TaskSnapshot)

/-- Point lookup of a task id in the store. -/
def lookupTask (st : TaskStore) (u : String) : Option TaskSnapshot :=
  (st.find? (fun p => p.1 == u)).map (fun p => p.2)

/-- In-place update of the snapshot held for an id, preserving order. -/
def updateTask (st : TaskStore) (u : String) (t : TaskSnapshot) : TaskStore :=
  st.map (fun p => if p.1 == u then (u, t) else p)

/-- Modelled from the spec: steps 1, 5 and 6 of section 4.2.  The prior snapshot
is looked up; the reconciled snapshot replaces it in place on a known id, while
a brand-new id is inserted at the newest end and, when that pushes the mapping
over the capacity bound, the oldest entry by first-seen order is evicted
(eviction only triggers on new-id insertion).  Returns the new store and the
snapshot handed to the dispatcher, whose created flag reports whether the id was
just introduced. -/
def applyTaskEvent (max_tasks : Nat) (st : TaskStore) (ev : TaskEvent) :
    TaskStore × TaskSnapshot :=
  match lookupTask st ev.uuid with
  | some t =>
      let snap := reconcileTask (some t) ev
      (updateTask st ev.uuid snap, snap)
  | none =>
      let snap := reconcileTask none ev
      let grown := st ++ [(ev.uuid, snap)]
      (if max_tasks < grown.length then grown.drop 1 else grown, snap)

/-- Applies a sequence of task events to a store and collects the created flag
of each published snapshot, in order. -/
def runTaskEvents (max_tasks : Nat) (st : TaskStore) : List TaskEvent → List Bool
  | [] => []
  | ev :: rest =>
      let res := applyTaskEvent max_tasks st ev
      res.2.created :: runTaskEvents max_tasks res.1 rest

/-! ## Worker snapshots -/

/-- Modelled from the spec: the worker snapshot kept by the state store, with the
fields the query surface exposes. -/
structure WorkerSnapshot where
  hostname : String
  pid : Nat
  sw_ident : String
  processed : Nat
  state : String
deriving DecidableEq, Repr

/-! ## The state store and its counters (spec sections 3 and 4.2) -/

/-- Modelled from the spec: the store queried by the RPC service, holding the
two bounded ordered mappings and the store-wide counters.  The counter
task_count counts every event that produced a task mutation and event_count
counts every normalized event applied, worker events included. -/
structure Store where
  tasks : TaskStore
  workers : List (String × WorkerSnapshot)
  task_count : Nat
  event_count : Nat
deriving Repr

/-- Modelled from the spec: the clear-tasks store operation (section 4.2 query
operations) drops all task snapshots and resets task-related counters only;
workers are unaffected. -/
def clear_tasks (s : Store) : Store :=
  { s with tasks := [], task_count := 0 }

/-- Embedding of the attributes RPCService binds on the service instance in its
init (src/clearly/server.py, lines 112 to 115): memory and the two dispatchers.
In particular neither listener nor dispatcher is ever set, while the method
bodies read self.listener and self.dispatcher; reading an unbound attribute
raises AttributeError at the read site. -/
def rpcServiceAttributes : List String :=
  ["memory", "dispatcher_tasks", "dispatcher_workers"]

/-- Embedding of RPCService.reset_tasks as called (src/clearly/server.py,
lines 220 to 224): the body evaluates self.listener.memory.clear_tasks(), so it
first resolves the attribute listener on the service; when that attribute is
unbound the call raises AttributeError and the store is left untouched,
otherwise it delegates to the clear-tasks operation of the memory.  Returns the
resulting store together with the outcome of the call. -/
def reset_tasks (attrs : List String) (s : Store) : Store × Except String Unit :=
  if "listener" ∈ attrs then (clear_tasks s, Except.ok ())
  else (s, Except.error "AttributeError: listener")

/-! ## Query surface (src/clearly/server.py) -/

/-- Modelled from the spec: the time-ordered task listing of the memory
(tasks_by_time of the underlying store, not under src): the stored tasks in
time order, optionally reversed, optionally capped by an advisory limit. -/
def tasks_by_time (tasks : List TaskSnapshot) (limit : Option Nat) (reverse : Bool) :
    List TaskSnapshot :=
  let ordered := if reverse then tasks.reverse else tasks
  match limit with
  | none => ordered
  | some n => ordered.take n

/-- The filtering the body of RPCService.filter_tasks expresses (lines 155 to
163): list the stored tasks by time and keep those accepted by the task pattern
against name and routing key and by the state pattern against the state, both
under the same negate flag. -/
def filter_tasks_body (pregex sregex : String → Bool) (tasks_negate : Bool)
    (limit : Option Nat) (reverse : Bool) (memory_tasks : List TaskSnapshot) :
    List TaskSnapshot :=
  (tasks_by_time memory_tasks limit reverse).filter
    (fun task => accepts pregex tasks_negate [task.name, task.routing_key]
      && accepts sregex tasks_negate [task.state])

/-- Embedding of RPCService.filter_tasks as called (src/clearly/server.py,
lines 143 to 169): the task listing is read through self.listener.memory at
line 160, so the call first resolves the attribute listener on the service;
when that attribute is unbound the call raises AttributeError before any
snapshot is filtered, otherwise it yields the filtered listing. -/
def filter_tasks (attrs : List String) (pregex sregex : String → Bool)
    (tasks_negate : Bool) (limit : Option Nat) (reverse : Bool)
    (memory_tasks : List TaskSnapshot) : Except String (List TaskSnapshot) :=
  if "listener" ∈ attrs then
    Except.ok (filter_tasks_body pregex sregex tasks_negate limit reverse memory_tasks)
  else Except.error "AttributeError: listener"

/-- The filtering the body of RPCService.filter_workers expresses (lines 181 to
187): the stored worker snapshots sorted by hostname, keeping those accepted by
the hostname pattern under the negate flag. -/
def filter_workers_body (hregex : String → Bool) (workers_negate : Bool)
    (workers : List WorkerSnapshot) : List WorkerSnapshot :=
  (workers.mergeSort (fun a b => decide (a.hostname ≤ b.hostname))).filter
    (fun worker => accepts hregex workers_negate [worker.hostname])

/-- Embedding of RPCService.filter_workers as called (src/clearly/server.py,
lines 171 to 193): the worker mapping is read through self.listener.memory at
line 185, so the call first resolves the attribute listener on the service;
when that attribute is unbound the call raises AttributeError and never yields
a worker, otherwise it yields the sorted filtered listing. -/
def filter_workers (attrs : List String) (hregex : String → Bool)
    (workers_negate : Bool) (workers : List WorkerSnapshot) :
    Except String (List WorkerSnapshot) :=
  if "listener" ∈ attrs then
    Except.ok (filter_workers_body hregex workers_negate workers)
  else Except.error "AttributeError: listener"

/-! ## get_stats (src/clearly/server.py, lines 226 to 240) -/

/-- Embedding of the protobuf StatsMessage with its four counters. -/
structure StatsMessage where
  task_count : Nat
  event_count : Nat
  len_tasks : Nat
  len_workers : Nat
deriving DecidableEq, Repr

/-- Embedding of the construction discipline of generated protobuf messages:
the constructor accepts keyword arguments only, so any positional argument makes
the call raise TypeError instead of producing a message. -/
def statsMessage_new (positional : Nat)
    (task_count event_count len_tasks len_workers : Nat) : Except String StatsMessage :=
  if positional = 0 then Except.ok ⟨task_count, event_count, len_tasks, len_workers⟩
  else Except.error "TypeError"

/-- Embedding of RPCService.get_stats (src/clearly/server.py, lines 226 to 240):
the body interleaves the logging call into the argument list of the StatsMessage
constructor, so the constructor receives one positional argument (the None
returned by the logging helper) besides the four keyword counters. -/
def get_stats (m : Store) : Except String StatsMessage :=
  statsMessage_new 1 m.task_count m.event_count m.tasks.length m.workers.length

/-! ## Server construction (src/clearly/server.py, lines 24 to 61) -/

/-- Embedding of the Python falsy-or defaulting used for the capacity bounds:
absent (None) and zero are falsy and select the default, any other number is
used as given. -/
def py_or_default (value : Option Nat) (default : Nat) : Nat :=
  match value with
  | none => default
  | some n => if n = 0 then default else n

/-- Embedding of line 48 of src/clearly/server.py: the pair of store capacity
bounds computed by ClearlyServer from its optional arguments. -/
def server_capacities (max_tasks max_workers : Option Nat) : Nat × Nat :=
  (py_or_default max_tasks 10000, py_or_default max_workers 100)

/-- Embedding of the module-level names bound in src/clearly/server.py by the
imported names of lines 1 to 16 and its top-level assignments: the globals
available to name resolution inside its methods. -/
def serverModuleNames : List String :=
  ["logging", "operator", "re", "futures", "Empty", "Queue", "Optional", "grpc",
   "about_time", "Task", "Worker", "EventListener", "TaskData", "WorkerData",
   "StreamingDispatcher", "clearly_pb2", "clearly_pb2_grpc", "accepts",
   "logger", "PATTERN_PARAMS_OP", "WORKER_HOSTNAME_OP", "ClearlyServer", "RPCService"]

/-- Outcome of evaluating a Python constructor body. -/
inductive PyOutcome where
  | returned : PyOutcome
  | systemExit (code : Nat) : PyOutcome
  | nameError (name : String) : PyOutcome
deriving DecidableEq, Repr

/-- Embedding of the control flow of ClearlyServer construction
(src/clearly/server.py, lines 37 to 61): after computing the capacities it
resolves the global name State to build the memory; if building the event
listener raises TimeoutError it logs critically and evaluates sys.exit(1),
which needs the global name sys; otherwise it resolves Role to build the
dispatchers and returns.  A name not bound in the module raises NameError at
its use site. -/
def clearlyServer_init_flow (names : List String) (listener_times_out : Bool) : PyOutcome :=
  if "State" ∈ names then
    if listener_times_out then
      if "sys" ∈ names then PyOutcome.systemExit 1 else PyOutcome.nameError "sys"
    else
      if "Role" ∈ names then PyOutcome.returned else PyOutcome.nameError "Role"
  else PyOutcome.nameError "State"

/-! ## capture_realtime delivery loop (src/clearly/server.py, lines 117 to 141) -/

/-- A tagged realtime event handed to a subscriber queue. -/
inductive EventData where
  | task (snapshot : TaskSnapshot) : EventData
  | worker (snapshot : WorkerSnapshot) : EventData
deriving DecidableEq, Repr

/-- Embedding of the literal bound passed to the blocking get of the subscriber
queue in capture_realtime: q.get is called with a one second bound. -/
def capture_get_bound : Nat := 1

/-- The delivery loop the body of capture_realtime expresses (lines 134 to
141), over a trace of bounded queue polls: each poll either returns an event
within the bound (some) or ends in Empty when the bound elapses with no data
(none); on Empty the loop continues with the next poll instead of blocking
further, and on data it yields the event. -/
def capture_realtime_run : List (Option EventData) → List EventData
  | [] => []
  | none :: rest => capture_realtime_run rest
  | some e :: rest => e :: capture_realtime_run rest

/-- Embedding of RPCService.capture_realtime as called (src/clearly/server.py,
lines 117 to 141): before any subscription exists or any bounded get is
issued, the generator evaluates self.dispatcher.streaming_client(...) at line
132, so it first resolves the attribute dispatcher on the service; when that
attribute is unbound the call raises AttributeError and the delivery loop is
never reached, otherwise the loop runs over the poll trace. -/
def capture_realtime (attrs : List String) (polls : List (Option EventData)) :
    Except String (List EventData) :=
  if "dispatcher" ∈ attrs then Except.ok (capture_realtime_run polls)
  else Except.error "AttributeError: dispatcher"

/-! ## Sample data used by the concrete witnesses -/

/-- A concrete first task event for the fixed id t1. -/
def sampleEvent1 : TaskEvent :=
  { uuid := "t1", name := some "billing.charge", routing_key := some "rk",
    state := some "RECEIVED", result := none }

/-- A concrete second task event for the same fixed id t1. -/
def sampleEvent2 : TaskEvent :=
  { uuid := "t1", name := none, routing_key := none,
    state := some "SUCCESS", result := some "42" }

/-! ## Theorems -/

/-- C2: for every capture request whose task filter and worker filter both parse
to not interested, the capture operation fails synchronously with the
descriptive error, before any request object is built or any RPC issued, so no
event is ever delivered to it. -/
theorem capture_rejects_both_not_interested (tasks workers : Option String)
    (ht : parse_pattern tasks = none) (hw : parse_pattern workers = none) :
    capture tasks workers = Except.error "Nothing would be selected." := by
  simp [capture, ht, hw]

/-- Witness for C2: both patterns are the not-interested marker. -/
theorem capture_rejects_both_not_interested_witness :
    capture (some "!") (some "!.") = Except.error "Nothing would be selected." :=
  capture_rejects_both_not_interested (some "!") (some "!.") (by decide) (by decide)

/-- C8: client pattern parsing maps a missing, empty or whitespace-only pattern
to the match-everything pattern with negate false; a stripped pattern starting
with a bang, other than the two not-interested markers, yields the remainder
with negate true; and the inputs bang and bang-dot yield no filter at all. -/
theorem parse_pattern_cases :
    (∀ input : Option String, (input = none ∨ pyStrip (input.getD "") = "") →
        parse_pattern input = some { pattern := ".", negate := false })
  ∧ (∀ s : String, startsWithBang (pyStrip s) = true → pyStrip s ≠ "!" → pyStrip s ≠ "!." →
        parse_pattern (some s) = some { pattern := dropFirst (pyStrip s), negate := true })
  ∧ parse_pattern (some "!") = none ∧ parse_pattern (some "!.") = none := by
  refine ⟨?_, ?_, by decide, by decide⟩
  · rintro input (rfl | h)
    · decide
    · simp only [parse_pattern, h]
      decide
  · intro s h1 h2 h3
    have hne : pyStrip s ≠ "" := by
      intro h0
      rw [h0] at h1
      exact absurd h1 (by decide)
    have hcond : ¬((decide (pyStrip s = "!") || decide (pyStrip s = "!.")) = true) := by
      simp [h2, h3]
    simp only [parse_pattern, Option.getD_some]
    rw [if_neg hne, if_neg hcond, h1]
    simp

/-- Witness for C8: a whitespace-only pattern, a negated pattern and the
not-interested marker, at concrete inputs. -/
theorem parse_pattern_cases_witness :
    parse_pattern (some "   ") = some { pattern := ".", negate := false } ∧
    parse_pattern (some "!email") = some { pattern := "email", negate := true } ∧
    parse_pattern (some "!") = none := by
  refine ⟨parse_pattern_cases.1 (some "   ") (Or.inr (by decide)), ?_,
    parse_pattern_cases.2.2.1⟩
  have h := parse_pattern_cases.2.1 "!email" (by decide) (by decide) (by decide)
  exact h.trans (by decide)

/-- C4 failing run: with the attributes RPCService actually binds, every
reset-tasks call raises AttributeError at self.listener and leaves the store
exactly as it was — no task snapshot removed, no counter zeroed. -/
theorem reset_tasks_attribute_error (s : Store) :
    (reset_tasks rpcServiceAttributes s).1 = s ∧
    (reset_tasks rpcServiceAttributes s).2 = Except.error "AttributeError: listener" := by
  unfold reset_tasks
  rw [if_neg (by decide)]
  exact ⟨rfl, rfl⟩

/-- C5 failing run: for every state of the store, get_stats raises TypeError
(the logging call spliced into the StatsMessage constructor is a positional
argument, which generated protobuf constructors reject), so it never returns
the four counters. -/
theorem get_stats_type_error (m : Store) :
    get_stats m = Except.error "TypeError" := rfl

/-- C7 failing run: when the event listener raises TimeoutError during server
construction, the construction does not exit cleanly with code 1; name
resolution fails first (the module imports neither State nor sys), so a
NameError propagates instead of the logged sys.exit(1). -/
theorem server_init_timeout_no_clean_exit :
    clearlyServer_init_flow serverModuleNames true = PyOutcome.nameError "State" ∧
    clearlyServer_init_flow serverModuleNames true ≠ PyOutcome.systemExit 1 := by
  decide

/-- C9 failing run: with the attributes RPCService actually binds, every
capture-realtime call raises AttributeError at self.dispatcher on its first
step, whatever the poll trace would have held, so the bounded-wait loop is
never reached and no bounded wait ever occurs. -/
theorem capture_realtime_attribute_error (polls : List (Option EventData)) :
    capture_realtime rpcServiceAttributes polls =
      Except.error "AttributeError: dispatcher" := by
  unfold capture_realtime
  rw [if_neg (by decide)]

/-- C10: absent (none) or zero capacity arguments select the defaults of 10000
tasks and 100 workers, and any non-zero value is used as given. -/
theorem server_capacities_defaults :
    (∀ mt mw : Option Nat, (mt = none ∨ mt = some 0) → (mw = none ∨ mw = some 0) →
        server_capacities mt mw = (10000, 100))
  ∧ (∀ a b : Nat, a ≠ 0 → b ≠ 0 → server_capacities (some a) (some b) = (a, b)) := by
  constructor
  · rintro mt mw (rfl | rfl) (rfl | rfl) <;> rfl
  · intro a b ha hb
    simp [server_capacities, py_or_default, ha, hb]

/-- Witness for C10: defaults at none and zero, and pass-through at 7 and 3. -/
theorem server_capacities_defaults_witness :
    server_capacities none (some 0) = (10000, 100) ∧
    server_capacities (some 7) (some 3) = (7, 3) :=
  ⟨server_capacities_defaults.1 none (some 0) (Or.inl rfl) (Or.inr rfl),
   server_capacities_defaults.2 7 3 (by decide) (by decide)⟩

/-- C3 failing run: with the attributes RPCService actually binds, every
filter-tasks call raises AttributeError at self.listener before any snapshot is
filtered, for every pattern, negate flag and store content, so the claimed OR
matching never takes place and no snapshot is ever accepted. -/
theorem filter_tasks_attribute_error (pregex sregex : String → Bool)
    (tasks_negate : Bool) (limit : Option Nat) (reverse : Bool)
    (memory_tasks : List TaskSnapshot) :
    filter_tasks rpcServiceAttributes pregex sregex tasks_negate limit reverse
        memory_tasks = Except.error "AttributeError: listener" := by
  unfold filter_tasks
  rw [if_neg (by decide)]

/-- C6 failing run: with the attributes RPCService actually binds, every
filter-workers call raises AttributeError at self.listener, for every pattern,
negate flag and store content, so no worker snapshot is ever yielded. -/
theorem filter_workers_attribute_error (hregex : String → Bool)
    (workers_negate : Bool) (workers : List WorkerSnapshot) :
    filter_workers rpcServiceAttributes hregex workers_negate workers =
      Except.error "AttributeError: listener" := by
  unfold filter_workers
  rw [if_neg (by decide)]

/-- Helper: updating the snapshot stored for an id that is present keeps the id
present, now bound to the new snapshot. -/
theorem lookupTask_update_self (st : TaskStore) (u : String) (t0 snap : TaskSnapshot)
    (h : lookupTask st u = some t0) :
    lookupTask (updateTask st u snap) u = some snap := by
  induction st with
  | nil => simp [lookupTask] at h
  | cons p rest ih =>
      by_cases hp : p.1 == u
      · simp [lookupTask, updateTask, List.find?, hp]
      · have h2 : lookupTask rest u = some t0 := by
          simpa [lookupTask, List.find?, hp] using h
        simpa [lookupTask, updateTask, List.find?, hp] using ih h2

/-- Helper: once an id is present in the store, every later event carrying that
id reconciles in place, so the published created flags of a run of such events
are all false. -/
theorem runTaskEvents_all_known (max_tasks : Nat) (u : String) (evs : List TaskEvent)
    (hall : ∀ e ∈ evs, e.uuid = u) (st : TaskStore) (t0 : TaskSnapshot)
    (hmem : lookupTask st u = some t0) :
    runTaskEvents max_tasks st evs = List.replicate evs.length false := by
  induction evs generalizing st t0 with
  | nil => rfl
  | cons ev rest ih =>
      have hu : ev.uuid = u := hall ev (List.mem_cons_self ev rest)
      have hlook : lookupTask st ev.uuid = some t0 := by rw [hu]; exact hmem
      have hall2 : ∀ e ∈ rest, e.uuid = u := fun e he => hall e (List.mem_cons_of_mem ev he)
      rw [runTaskEvents]
      simp only [applyTaskEvent, hlook]
      rw [List.length_cons, List.replicate_succ]
      refine congrArg₂ List.cons rfl ?_
      refine ih hall2 (updateTask st ev.uuid (reconcileTask (some t0) ev))
        (reconcileTask (some t0) ev) ?_
      rw [hu] at hlook ⊢
      exact lookupTask_update_self st u t0 _ hlook

/-- C1: for every sequence of task events carrying one fixed id, applied from
the empty store under any positive capacity bound, the created flag of the
published snapshot is true exactly on the first event (no prior snapshot
exists) and false on every later one. -/
theorem created_true_iff_first_event (max_tasks : Nat) (hcap : 1 ≤ max_tasks)
    (u : String) (evs : List TaskEvent) (hall : ∀ e ∈ evs, e.uuid = u) :
    runTaskEvents max_tasks [] evs =
      if evs.length = 0 then [] else true :: List.replicate (evs.length - 1) false := by
  cases evs with
  | nil => rfl
  | cons ev rest =>
      have hu : ev.uuid = u := hall ev (List.mem_cons_self ev rest)
      have hall2 : ∀ e ∈ rest, e.uuid = u := fun e he => hall e (List.mem_cons_of_mem ev he)
      have hnone : lookupTask [] ev.uuid = none := rfl
      rw [runTaskEvents]
      simp only [applyTaskEvent, hnone, List.nil_append, List.length_singleton]
      rw [if_neg (by omega)]
      have hfirst : lookupTask [(ev.uuid, reconcileTask none ev)] u =
          some (reconcileTask none ev) := by
        simp [lookupTask, List.find?, hu]
      rw [if_neg (by simp)]
      refine congrArg₂ List.cons rfl ?_
      simpa using runTaskEvents_all_known max_tasks u rest hall2
        [(ev.uuid, reconcileTask none ev)] (reconcileTask none ev) hfirst

/-- Witness for C1: two concrete events for the fixed id t1, capacity one. -/
theorem created_true_iff_first_event_witness :
    runTaskEvents 1 [] [sampleEvent1, sampleEvent2] = [true, false] :=
  created_true_iff_first_event 1 (by decide) "t1" [sampleEvent1, sampleEvent2] (by decide)

end Clearly
